import Mathlib

/-!
Verification of the hybrid temporal retrieval core of the municipal-memory
question-answering service (the utilities exported as `extractYearFromQuery`,
`calculateTemporalProximity`, `filterByYear`, `applyTemporalWeighting` and
`performHybridSearch`).

Modelling conventions:
* JavaScript numbers used as scores/weights are modelled as rationals, so the
  arithmetic of the source formulas is exact.
* Years are integers; an optional `year` field is `Option Int`.
* JavaScript truthiness tests on an optional numeric field (`!chunk.year`,
  `queryYear && ...`) are modelled faithfully: the value is falsy when it is
  absent or equal to 0.
* Strings are scanned as their character lists; the regular expressions of the
  source are small enough to be modelled directly as deterministic scanners
  with the leftmost-match, first-alternative semantics of the JavaScript
  engine.
-/

namespace TemporalSearch

/-- A retrieved document chunk, the unit of ranking. `text` and `score` are
the required payload from the vector search; `filename`, `page` and `year`
are optional metadata; `temporalScore`, `finalScore` and `originalScore` are
the fields added by the weighting step. -/
structure Chunk where
  text : String
  filename : Option String
  page : Option Int
  score : ℚ
  year : Option Int
  temporalScore : Option ℚ
  finalScore : Option ℚ
  originalScore : Option ℚ
deriving DecidableEq, Repr

/-- Configuration of `performHybridSearch`; the source destructures an
options object with defaults temporalWeight = 0.3, yearTolerance = 2,
enableFiltering = true, enableWeighting = true. -/
structure SearchOptions where
  temporalWeight : ℚ
  yearTolerance : Int
  enableFiltering : Bool
  enableWeighting : Bool
deriving DecidableEq, Repr

/-- The options object with every field left to its default. -/
def defaultOptions : SearchOptions :=
  { temporalWeight := 3 / 10
    yearTolerance := 2
    enableFiltering := true
    enableWeighting := true }

/-- Diagnostic metadata record returned by the orchestrator. -/
structure SearchMetadata where
  queryYear : Option Int
  temporalFilterApplied : Bool
  temporalWeightingApplied : Bool
  originalCount : Nat
  filteredCount : Nat
deriving DecidableEq, Repr

/-- The pair returned by `performHybridSearch`. -/
structure SearchResult where
  chunks : List Chunk
  metadata : SearchMetadata
deriving DecidableEq, Repr

/-! ### Year extraction (`extractYearFromQuery`)

The source tries three global regular expressions in order; for each pattern
it looks at the first match only (`matches[0]`), re-extracts the first run of
four digits from that match, parses it, and returns it when it lies in
[1900, 2100]; otherwise it falls through to the next pattern, and finally to
`null`. -/

/-- The apostrophe character U+0027, written by code point because it occurs
inside the cue words of the second and third patterns. -/
def apostropheChar : Char := Char.ofNat 39

/-- Case folding used to model the `i` regex flag. `Char.toLower` handles the
ASCII range; the only non-ASCII letter occurring in the cue words is the
accented e, folded here explicitly. -/
def charLower (c : Char) : Char :=
  if c = 'É' then 'é' else c.toLower

/-- Value of a digit string, as computed by `parseInt` on decimal digits. -/
def digitsVal (ds : List Char) : Nat :=
  ds.foldl (fun acc c => 10 * acc + (c.toNat - 48)) 0

/-- Match of `\d{4}` anchored at the head of the text: the first four
characters when they are all digits. -/
def startsWith4Digits : List Char → Option (List Char)
  | a :: b :: c :: d :: _ =>
    if a.isDigit && b.isDigit && c.isDigit && d.isDigit then some [a, b, c, d] else none
  | _ => none

/-- First (leftmost) match of `\d{4}` in the text: the regex engine tries the
pattern at every position from the left. This models both `matches[0]` of
the source pattern `(\d{4})` with the `g` flag and the inner re-extraction
`match(/(\d{4})/)`. -/
def firstRun4 : List Char → Option (List Char)
  | [] => none
  | c :: rest =>
    match startsWith4Digits (c :: rest) with
    | some m => some m
    | none => firstRun4 rest

/-- Case-insensitive literal match of a cue word at the head of the text,
returning the remainder after the cue. -/
def stripCue : List Char → List Char → Option (List Char)
  | [], text => some text
  | _ :: _, [] => none
  | c :: cs, t :: ts => if charLower t = charLower c then stripCue cs ts else none

/-- Drop a run of whitespace characters. -/
def dropWS : List Char → List Char
  | [] => []
  | c :: rest => if c.isWhitespace then dropWS rest else c :: rest

/-- Match of `\s+(\d{4})` at the head of the text, returning the four digits.
`\s+` is greedy and whitespace is disjoint from digits, so the match succeeds
exactly when the text starts with at least one whitespace character and the
first non-whitespace characters are four digits. -/
def wsThenDigits : List Char → Option (List Char)
  | [] => none
  | c :: rest => if c.isWhitespace then startsWith4Digits (dropWS rest) else none

/-- Try `(?:cue1|cue2|...)\s+(\d{4})` at one position: the alternatives are
tried in listed order, and the engine backtracks to the next alternative when
the rest of the pattern fails, as in the source regex. Returns the four
digits of the match. (The source re-extracts the first digit run from the
whole matched text `matches[0]`; since cue words and whitespace contain no
digits, that run is exactly the `\d{4}` part, which is returned here.) -/
def cueMatchHere (text : List Char) : List (List Char) → Option (List Char)
  | [] => none
  | cue :: cues =>
    match stripCue cue text with
    | some after =>
      match wsThenDigits after with
      | some ds => some ds
      | none => cueMatchHere text cues
    | none => cueMatchHere text cues

/-- Leftmost match of a cue pattern: positions are scanned from the left and
the first position where some alternative matches wins. -/
def firstCueMatch (cues : List (List Char)) : List Char → Option (List Char)
  | [] => none
  | c :: rest =>
    match cueMatchHere (c :: rest) cues with
    | some ds => some ds
    | none => firstCueMatch cues rest

/-- Cue alternatives of the second source pattern, in listed order:
en, de, du, pour l + apostrophe, pour, annee with accented e, exercice. -/
def cueWords : List (List Char) :=
  [['e', 'n'], ['d', 'e'], ['d', 'u'],
   ['p', 'o', 'u', 'r', ' ', 'l', apostropheChar],
   ['p', 'o', 'u', 'r'],
   ['a', 'n', 'n', 'é', 'e'],
   ['e', 'x', 'e', 'r', 'c', 'i', 'c', 'e']]

/-- Cue alternatives of the third source pattern, in listed order:
l + apostrophe, le, la. -/
def articleWords : List (List Char) :=
  [['l', apostropheChar], ['l', 'e'], ['l', 'a']]

/-- Validation step shared by the three patterns: when a match was found,
parse its digits and accept the value only in [1900, 2100]; otherwise fall
through (modelled by `none`). -/
def validYear (ds : Option (List Char)) : Option Int :=
  match ds with
  | none => none
  | some d =>
    if 1900 ≤ digitsVal d ∧ digitsVal d ≤ 2100 then some ((digitsVal d : Nat) : Int) else none

/-- The year extractor on a character list: the three patterns are tried in
order, each contributing the parsed first match, and the first in-range value
is returned. -/
def extractYearFromChars (q : List Char) : Option Int :=
  match validYear (firstRun4 q) with
  | some y => some y
  | none =>
    match validYear (firstCueMatch cueWords q) with
    | some y => some y
    | none => validYear (firstCueMatch articleWords q)

/-- `extractYearFromQuery(query)` of the source. -/
def extractYearFromQuery (query : String) : Option Int :=
  extractYearFromChars query.data

/-! ### Temporal proximity, filter and weighting -/

/-- `calculateTemporalProximity(queryYear, documentYear)`:
`Math.pow(0.8, Math.abs(queryYear - documentYear))`, with 0.8 = 4/5 exact. -/
def calculateTemporalProximity (queryYear documentYear : Int) : ℚ :=
  (4 / 5 : ℚ) ^ (queryYear - documentYear).natAbs

/-- JavaScript truthiness of an optional numeric field: falsy when absent or
zero. Used for `!chunk.year` and `queryYear && ...` in the source. -/
def yearTruthy : Option Int → Bool
  | none => false
  | some y => y != 0

/-- The predicate of `filterByYear`: `if (!chunk.year) return true;` keeps a
chunk whose year is absent or 0 (falsy); otherwise the chunk is kept exactly
when `Math.abs(chunk.year - targetYear) <= tolerance`. -/
def keepChunk (targetYear tolerance : Int) (chunk : Chunk) : Bool :=
  match chunk.year with
  | none => true
  | some y => if y = 0 then true else decide (|y - targetYear| ≤ tolerance)

/-- `filterByYear(chunks, targetYear, tolerance)`: `chunks.filter(...)`. -/
def filterByYear (chunks : List Chunk) (targetYear tolerance : Int) : List Chunk :=
  chunks.filter (keepChunk targetYear tolerance)

/-- Body of the map in `applyTemporalWeighting`: a chunk with a falsy year is
copied with `finalScore = score`; otherwise the copy carries
`temporalScore`, the blended `finalScore` and `originalScore = score`. -/
def weightChunk (queryYear : Int) (temporalWeight : ℚ) (chunk : Chunk) : Chunk :=
  match chunk.year with
  | none => { chunk with finalScore := some chunk.score }
  | some y =>
    if y = 0 then { chunk with finalScore := some chunk.score }
    else
      { chunk with
          temporalScore := some (calculateTemporalProximity queryYear y)
          finalScore := some ((1 - temporalWeight) * chunk.score
            + temporalWeight * calculateTemporalProximity queryYear y)
          originalScore := some chunk.score }

/-- `applyTemporalWeighting(chunks, queryYear, temporalWeight)`:
`chunks.map(...)`. -/
def applyTemporalWeighting (chunks : List Chunk) (queryYear : Int)
    (temporalWeight : ℚ) : List Chunk :=
  chunks.map (weightChunk queryYear temporalWeight)

/-! ### The orchestrator (`performHybridSearch`) -/

/-- Sort key of the final sort: `b[sortKey] - a[sortKey]` with
`sortKey = 'finalScore'` when a year was found and weighting is enabled,
`'score'` otherwise. A missing `finalScore` is defaulted to 0 here; the
orchestrator only sorts by `finalScore` right after the weighting step, which
sets `finalScore` on every chunk, so the default is never consulted on any
orchestrator path. -/
def sortKeyVal (useFinal : Bool) (c : Chunk) : ℚ :=
  if useFinal then c.finalScore.getD 0 else c.score

/-- Boolean comparison realising the descending comparator
`(a, b) => b[sortKey] - a[sortKey]`: `a` may come before `b` exactly when the
key of `a` is at least the key of `b`. -/
def chunkLE (useFinal : Bool) (a b : Chunk) : Bool :=
  decide (sortKeyVal useFinal b ≤ sortKeyVal useFinal a)

/-- The final sort of the orchestrator. `Array.prototype.sort` is required to
be stable by the language specification, so it is modelled by a stable merge
sort with the comparator above. -/
def sortChunks (useFinal : Bool) (l : List Chunk) : List Chunk :=
  l.mergeSort (chunkLE useFinal)

/-- Step 1 of the orchestrator: `if (queryYear && enableFiltering)` replace
the working set by `filterByYear(processedChunks, queryYear, yearTolerance)`.
(The `getD 0` default is never consulted: the guard requires a truthy year.) -/
def hybridFiltered (chunks : List Chunk) (queryYear : Option Int)
    (options : SearchOptions) : List Chunk :=
  if yearTruthy queryYear && options.enableFiltering then
    filterByYear chunks (queryYear.getD 0) options.yearTolerance
  else chunks

/-- Step 2 of the orchestrator: `if (queryYear && enableWeighting)` replace
the working set by `applyTemporalWeighting(processedChunks, queryYear,
temporalWeight)`. -/
def hybridWeighted (chunks : List Chunk) (queryYear : Option Int)
    (options : SearchOptions) : List Chunk :=
  if yearTruthy queryYear && options.enableWeighting then
    applyTemporalWeighting chunks (queryYear.getD 0) options.temporalWeight
  else chunks

/-- The working set right before the final sort: the input list after the
conditional filtering and weighting steps. -/
def hybridWorkingSet (chunks : List Chunk) (query : String)
    (options : SearchOptions) : List Chunk :=
  hybridWeighted (hybridFiltered chunks (extractYearFromQuery query) options)
    (extractYearFromQuery query) options

/-- Condition under which the orchestrator sorts by `finalScore`. -/
def hybridUseFinal (query : String) (options : SearchOptions) : Bool :=
  yearTruthy (extractYearFromQuery query) && options.enableWeighting

/-- `performHybridSearch(chunks, query, options)`: extract the year,
conditionally filter and weight, sort by the chosen key, and return the
ranked list together with the metadata record. `temporalFilterApplied` and
`filteredCount` are initialised to `false` and `chunks.length` and updated
exactly when the corresponding step runs, which is what the conditional
expressions below compute. -/
def performHybridSearch (chunks : List Chunk) (query : String)
    (options : SearchOptions) : SearchResult :=
  { chunks := sortChunks (hybridUseFinal query options) (hybridWorkingSet chunks query options)
    metadata :=
      { queryYear := extractYearFromQuery query
        temporalFilterApplied := yearTruthy (extractYearFromQuery query) && options.enableFiltering
        temporalWeightingApplied := yearTruthy (extractYearFromQuery query) && options.enableWeighting
        originalCount := chunks.length
        filteredCount := (hybridFiltered chunks (extractYearFromQuery query) options).length } }

/-! Sanity checks of the embedding on the concrete scenarios of the
documentation. -/

example : extractYearFromQuery ("Quels sont les projets pour 2025?") = some 2025 := by decide
example : extractYearFromQuery ("Projets futurs") = none := by decide
example : calculateTemporalProximity 2025 2020 = 1024 / 3125 := by
  norm_num [calculateTemporalProximity]

/-! ### Helper lemmas on year extraction -/

/-- A value accepted by the validation step lies in [1900, 2100]. -/
theorem validYear_some {o : Option (List Char)} {y : Int}
    (h : validYear o = some y) : 1900 ≤ y ∧ y ≤ 2100 := by
  match o with
  | none => simp [validYear] at h
  | some d =>
    simp only [validYear] at h
    split at h
    · rename_i hc
      cases h
      exact ⟨by exact_mod_cast hc.1, by exact_mod_cast hc.2⟩
    · cases h

/-- Every extracted year lies in [1900, 2100]. -/
theorem extractYear_bounds {q : String} {y : Int}
    (h : extractYearFromQuery q = some y) : 1900 ≤ y ∧ y ≤ 2100 := by
  unfold extractYearFromQuery extractYearFromChars at h
  split at h
  next y1 heq => exact (Option.some.inj h) ▸ validYear_some heq
  next heq =>
    split at h
    next y2 heq2 => exact (Option.some.inj h) ▸ validYear_some heq2
    next heq3 => exact validYear_some h

/-- The truthiness test the orchestrator applies to the extracted year agrees
with mere presence, because an extracted year is at least 1900 and hence
never the falsy number 0. -/
theorem yearTruthy_extract (q : String) :
    yearTruthy (extractYearFromQuery q) = (extractYearFromQuery q).isSome := by
  cases h : extractYearFromQuery q with
  | none => rfl
  | some y =>
    have hy := (extractYear_bounds h).1
    simp only [yearTruthy, Option.isSome_some, bne_iff_ne, ne_eq]
    omega

/-! ### Claims about the year extractor -/

/-- C6: the year extractor is a total function of the query string; its only
outcomes are absence of a year or a single integer in [1900, 2100]. -/
theorem extractYearFromQuery_rangeValidity (query : String) :
    extractYearFromQuery query = none ∨
      ∃ y : Int, extractYearFromQuery query = some y ∧ 1900 ≤ y ∧ y ≤ 2100 := by
  cases h : extractYearFromQuery query with
  | none => exact Or.inl rfl
  | some y => exact Or.inr ⟨y, rfl, extractYear_bounds h⟩

/-- C7 counterexample: the primary pattern carries no boundary assertions, so
on the longer numeric run 1950000 it matches the first four digits, 1950,
which is in range and is returned as a year; a longer numeric run can
therefore yield a year by itself, contrary to the claim. -/
theorem extractYear_longRun_counterexample :
    extractYearFromQuery ("1950000") = some 1950 := by decide

/-- C7 amended: the primary four-digit pattern matches any four consecutive
digits, including the first four digits of a longer numeric run; such a run
yields a year exactly when its first four digits parse into [1900, 2100]
(so 2500000 and budget 2500000 yield nothing, while 1950000 yields 1950).
Overlaps are resolved deterministically by trying the patterns in priority
order with each pattern contributing only its first match: in 9999 en 2025
the primary pattern offers only 9999, which fails validation, and the cue
pattern then supplies 2025; in 9999 2025 no later pattern matches and the
result is no year, even though the primary pattern also matches 2025
further right. -/
theorem extractYear_primary_pattern_behaviour :
    extractYearFromQuery ("2500000") = none
    ∧ extractYearFromQuery ("1950000") = some 1950
    ∧ extractYearFromQuery ("budget 2500000") = none
    ∧ extractYearFromQuery ("9999 en 2025") = some 2025
    ∧ extractYearFromQuery ("9999 2025") = none := by decide

/-! ### Claim about the proximity scorer -/

/-- C4: the proximity scorer computes the exact exponential decay
(4/5)^distance: 1 at distance 0, 4/5 at one year, 16/25 at two, 64/125 at
three; for a fixed query year it is non-increasing as the distance grows and
its value always lies in (0, 1]. -/
theorem calculateTemporalProximity_spec :
    (∀ q d : Int, calculateTemporalProximity q d = (4 / 5 : ℚ) ^ (q - d).natAbs)
    ∧ (∀ y : Int, calculateTemporalProximity y y = 1)
    ∧ calculateTemporalProximity 2025 2024 = 4 / 5
    ∧ calculateTemporalProximity 2025 2023 = 16 / 25
    ∧ calculateTemporalProximity 2025 2022 = 64 / 125
    ∧ (∀ q y₁ y₂ : Int, (q - y₁).natAbs ≤ (q - y₂).natAbs →
        calculateTemporalProximity q y₂ ≤ calculateTemporalProximity q y₁)
    ∧ (∀ q d : Int, 0 < calculateTemporalProximity q d ∧ calculateTemporalProximity q d ≤ 1) := by
  refine ⟨fun q d => rfl,
    fun y => by simp [calculateTemporalProximity],
    by norm_num [calculateTemporalProximity],
    by norm_num [calculateTemporalProximity],
    by norm_num [calculateTemporalProximity],
    fun q y₁ y₂ h => pow_le_pow_of_le_one (by norm_num) (by norm_num) h,
    fun q d => ⟨pow_pos (by norm_num) _, pow_le_one₀ (by norm_num) (by norm_num)⟩⟩

/-- Witness for C4: the monotonicity clause applied at query year 2025 and
document years 2024 and 2020. -/
theorem calculateTemporalProximity_spec_witness :
    (2025 - 2024 : Int).natAbs ≤ (2025 - 2020 : Int).natAbs
    ∧ calculateTemporalProximity 2025 2020 ≤ calculateTemporalProximity 2025 2024 :=
  ⟨by decide, calculateTemporalProximity_spec.2.2.2.2.2.1 2025 2024 2020 (by decide)⟩

/-! ### Concrete chunks used by witnesses and counterexamples -/

/-- A chunk whose `year` field is present but holds the falsy number 0. -/
def zeroYearChunk : Chunk := ⟨"extrait", none, none, 1, some 0, none, none, none⟩

/-- A chunk with no `year` field. -/
def datelessChunk : Chunk := ⟨"sans date", none, none, 1 / 2, none, none, none, none⟩

/-- A chunk dated 2020. -/
def datedChunk : Chunk := ⟨"compte rendu", none, none, 1 / 2, some 2020, none, none, none⟩

/-- Two dateless chunks with equal scores, for the stability witness. -/
def chunkA : Chunk := ⟨"premier", none, none, 1 / 2, none, none, none, none⟩

/-- Second chunk of the stability witness. -/
def chunkB : Chunk := ⟨"second", none, none, 1 / 2, none, none, none, none⟩

/-! ### Claims about the temporal filter -/

/-- C2 counterexample: a chunk whose `year` field holds 0 is falsy in the
source test `!chunk.year`, so `filterByYear` retains it although it has a
year whose distance 2025 to the target year exceeds the tolerance 2; the
claimed retain-iff policy is therefore false for this input. -/
theorem filterByYear_yearZero_counterexample :
    zeroYearChunk.year = some 0
    ∧ ¬ (|(0 : Int) - 2025| ≤ 2)
    ∧ filterByYear [zeroYearChunk] 2025 2 = [zeroYearChunk] := by
  refine ⟨rfl, by decide, rfl⟩

/-- C2 amended: `filterByYear` retains a chunk if and only if its `year`
field is absent or 0 (the JavaScript-falsy years), or its distance to the
target year is at most the tolerance; the survivors keep their relative
input order (the output is a sublist of the input, stable, no re-sort);
every chunk lacking a year survives, for every tolerance including 0; an
empty input yields an empty output. -/
theorem filterByYear_spec (chunks : List Chunk) (targetYear tolerance : Int) :
    List.Sublist (filterByYear chunks targetYear tolerance) chunks
    ∧ (∀ c : Chunk, c ∈ filterByYear chunks targetYear tolerance ↔
        c ∈ chunks ∧ (c.year = none ∨ c.year = some 0 ∨
          ∃ y : Int, c.year = some y ∧ |y - targetYear| ≤ tolerance))
    ∧ (∀ c ∈ chunks, c.year = none → c ∈ filterByYear chunks targetYear tolerance)
    ∧ filterByYear ([] : List Chunk) targetYear tolerance = [] := by
  have hpred : ∀ c : Chunk, keepChunk targetYear tolerance c = true ↔
      (c.year = none ∨ c.year = some 0 ∨
        ∃ y : Int, c.year = some y ∧ |y - targetYear| ≤ tolerance) := by
    intro c
    rcases hy : c.year with _ | y
    · simp [keepChunk, hy]
    · by_cases h0 : y = 0
      · subst h0; simp [keepChunk, hy]
      · simp [keepChunk, hy, h0]
  refine ⟨List.filter_sublist _, fun c => ?_, fun c hc hnone => ?_, rfl⟩
  · rw [filterByYear, List.mem_filter, hpred]
  · rw [filterByYear, List.mem_filter]
    exact ⟨hc, (hpred c).mpr (Or.inl hnone)⟩

/-- Witness for the amended C2: a dateless chunk survives filtering with
tolerance 0. -/
theorem filterByYear_spec_witness :
    datelessChunk ∈ filterByYear [datelessChunk] 2025 0 :=
  (filterByYear_spec [datelessChunk] 2025 0).2.2.1 datelessChunk
    (List.mem_singleton_self _) rfl

/-! ### Claims about the temporal weighter -/

/-- C3 counterexample: a chunk whose `year` field holds 0 receives the
dateless treatment from `applyTemporalWeighting`: it is emitted with
`finalScore = score` and no `temporalScore`, whereas the claim requires every
chunk with a year to carry `temporalScore = proximity(queryYear, year)`. -/
theorem applyTemporalWeighting_yearZero_counterexample :
    zeroYearChunk.year = some 0
    ∧ (applyTemporalWeighting [zeroYearChunk] 2025 (3 / 10)).map Chunk.temporalScore = [none]
    ∧ (applyTemporalWeighting [zeroYearChunk] 2025 (3 / 10)).map Chunk.finalScore
        = [some zeroYearChunk.score] :=
  ⟨rfl, rfl, rfl⟩

/-- C3 amended: the weighter maps each chunk independently, preserving length
and order; a chunk whose `year` is absent or the falsy 0 is emitted as a copy
with `finalScore = score` and all other fields unchanged (in particular no
`temporalScore` is attached to it); a chunk with a nonzero year is emitted as
a copy carrying `temporalScore = proximity(queryYear, year)`,
`finalScore = (1 - temporalWeight) * score + temporalWeight * temporalScore`
as an exact rational equation, and `originalScore` equal to the pre-weighting
score. -/
theorem applyTemporalWeighting_spec (chunks : List Chunk) (queryYear : Int)
    (temporalWeight : ℚ) :
    (applyTemporalWeighting chunks queryYear temporalWeight).length = chunks.length
    ∧ ∀ i (hi : i < chunks.length),
        ((chunks[i].year = none ∨ chunks[i].year = some 0) →
          (applyTemporalWeighting chunks queryYear temporalWeight)[i]? =
            some { chunks[i] with finalScore := some chunks[i].score })
        ∧ (∀ y : Int, chunks[i].year = some y → y ≠ 0 →
          (applyTemporalWeighting chunks queryYear temporalWeight)[i]? =
            some { chunks[i] with
              temporalScore := some (calculateTemporalProximity queryYear y)
              finalScore := some ((1 - temporalWeight) * chunks[i].score
                + temporalWeight * calculateTemporalProximity queryYear y)
              originalScore := some chunks[i].score }) := by
  refine ⟨List.length_map _ _, fun i hi => ?_⟩
  have hmap : (applyTemporalWeighting chunks queryYear temporalWeight)[i]? =
      some (weightChunk queryYear temporalWeight chunks[i]) := by
    rw [applyTemporalWeighting, List.getElem?_map, List.getElem?_eq_getElem hi]
    rfl
  rw [hmap]
  constructor
  · rintro (h | h) <;> simp [weightChunk, h]
  · intro y hy h0
    simp [weightChunk, hy, h0]

/-- Witness for the amended C3: the dated-chunk clause applied to a chunk of
year 2020 with query year 2025 and the default weight. -/
theorem applyTemporalWeighting_spec_witness :
    (applyTemporalWeighting [datedChunk] 2025 (3 / 10))[0]? =
      some { datedChunk with
        temporalScore := some (calculateTemporalProximity 2025 2020)
        finalScore := some ((1 - 3 / 10) * datedChunk.score
          + 3 / 10 * calculateTemporalProximity 2025 2020)
        originalScore := some datedChunk.score } :=
  ((applyTemporalWeighting_spec [datedChunk] 2025 (3 / 10)).2 0 (by decide)).2 2020 rfl
    (by decide)

/-! ### Helper lemmas about the orchestrator steps -/

/-- The filtering step can only drop chunks. -/
theorem hybridFiltered_length_le (chunks : List Chunk) (qY : Option Int)
    (options : SearchOptions) :
    (hybridFiltered chunks qY options).length ≤ chunks.length := by
  unfold hybridFiltered
  split
  · exact List.length_filter_le _ _
  · exact le_rfl

/-- When the filtering guard is false the working set is unchanged. -/
theorem hybridFiltered_of_not_run (chunks : List Chunk) (qY : Option Int)
    (options : SearchOptions) (h : (yearTruthy qY && options.enableFiltering) = false) :
    hybridFiltered chunks qY options = chunks := by
  unfold hybridFiltered
  rw [h]
  rfl

/-- The weighting step preserves the length of the working set. -/
theorem hybridWeighted_length (chunks : List Chunk) (qY : Option Int)
    (options : SearchOptions) :
    (hybridWeighted chunks qY options).length = chunks.length := by
  unfold hybridWeighted
  split
  · exact List.length_map _ _
  · rfl

/-- Filtering an empty working set yields an empty working set. -/
theorem hybridFiltered_nil (qY : Option Int) (options : SearchOptions) :
    hybridFiltered [] qY options = [] := by
  unfold hybridFiltered
  split <;> rfl

/-- Weighting an empty working set yields an empty working set. -/
theorem hybridWeighted_nil (qY : Option Int) (options : SearchOptions) :
    hybridWeighted [] qY options = [] := by
  unfold hybridWeighted
  split <;> rfl

/-- Sorting an empty list yields an empty list. -/
theorem sortChunks_nil (b : Bool) : sortChunks b [] = [] := by
  simp [sortChunks]

/-- The final sort preserves the length of the working set. -/
theorem sortChunks_length (b : Bool) (l : List Chunk) :
    (sortChunks b l).length = l.length := by
  simp [sortChunks]

/-- The comparator of the final sort is transitive. -/
theorem chunkLE_trans (u : Bool) :
    ∀ a b c : Chunk, chunkLE u a b → chunkLE u b c → chunkLE u a c := by
  intro a b c hab hbc
  simp only [chunkLE, decide_eq_true_eq] at *
  exact le_trans hbc hab

/-- The comparator of the final sort is total. -/
theorem chunkLE_total (u : Bool) : ∀ a b : Chunk, chunkLE u a b || chunkLE u b a := by
  intro a b
  simp only [chunkLE, Bool.or_eq_true, decide_eq_true_eq]
  exact le_total _ _

/-- The weighter changes none of the identity fields of a chunk. -/
theorem weightChunk_fields (queryYear : Int) (temporalWeight : ℚ) (c : Chunk) :
    (weightChunk queryYear temporalWeight c).text = c.text
    ∧ (weightChunk queryYear temporalWeight c).filename = c.filename
    ∧ (weightChunk queryYear temporalWeight c).page = c.page
    ∧ (weightChunk queryYear temporalWeight c).score = c.score
    ∧ (weightChunk queryYear temporalWeight c).year = c.year := by
  rcases hy : c.year with _ | y
  · simp [weightChunk, hy]
  · by_cases h0 : y = 0 <;> simp [weightChunk, hy, h0]

/-- The weighter sets a `finalScore` on every chunk it emits. -/
theorem weightChunk_finalScore_isSome (queryYear : Int) (temporalWeight : ℚ) (c : Chunk) :
    (weightChunk queryYear temporalWeight c).finalScore.isSome = true := by
  rcases hy : c.year with _ | y
  · simp [weightChunk, hy]
  · by_cases h0 : y = 0 <;> simp [weightChunk, hy, h0]

/-- Every member of the pre-sort working set descends from an input chunk
with the same identity fields. -/
theorem mem_hybridWorkingSet_frame {chunks : List Chunk} {query : String}
    {options : SearchOptions} {c : Chunk}
    (hc : c ∈ hybridWorkingSet chunks query options) :
    ∃ c₀ ∈ chunks, c.text = c₀.text ∧ c.filename = c₀.filename ∧ c.page = c₀.page
      ∧ c.score = c₀.score ∧ c.year = c₀.year := by
  have hfil : ∀ d : Chunk, d ∈ hybridFiltered chunks (extractYearFromQuery query) options →
      d ∈ chunks := by
    intro d hd
    revert hd
    unfold hybridFiltered
    split
    · exact fun hd => (List.mem_filter.mp hd).1
    · exact id
  rw [hybridWorkingSet] at hc
  revert hc
  unfold hybridWeighted
  split
  · intro hc
    rcases List.mem_map.mp hc with ⟨c₁, hc₁, rfl⟩
    obtain ⟨ht, hf, hp, hs, hy⟩ := weightChunk_fields _ _ c₁
    exact ⟨c₁, hfil c₁ hc₁, ht, hf, hp, hs, hy⟩
  · intro hc
    exact ⟨c, hfil c hc, rfl, rfl, rfl, rfl, rfl⟩

/-! ### Claims about the orchestrator -/

/-- C1: the orchestrator metadata is exact: `temporalFilterApplied` holds iff
a year was extracted and filtering is enabled; `temporalWeightingApplied`
holds iff a year was extracted and weighting is enabled; `originalCount` is
the input length; `filteredCount` is the length of the working set after the
filtering step, never exceeds `originalCount`, and equals it when filtering
is disabled or no year was found; `queryYear` is always the extraction
result, and an empty input produces an empty ranked list with both counts
zero. -/
theorem performHybridSearch_metadata_spec (chunks : List Chunk) (query : String)
    (options : SearchOptions) :
    (performHybridSearch chunks query options).metadata.queryYear = extractYearFromQuery query
    ∧ (performHybridSearch chunks query options).metadata.temporalFilterApplied
        = ((extractYearFromQuery query).isSome && options.enableFiltering)
    ∧ (performHybridSearch chunks query options).metadata.temporalWeightingApplied
        = ((extractYearFromQuery query).isSome && options.enableWeighting)
    ∧ (performHybridSearch chunks query options).metadata.originalCount = chunks.length
    ∧ (performHybridSearch chunks query options).metadata.filteredCount
        = (hybridFiltered chunks (extractYearFromQuery query) options).length
    ∧ (performHybridSearch chunks query options).metadata.filteredCount
        ≤ (performHybridSearch chunks query options).metadata.originalCount
    ∧ ((options.enableFiltering = false ∨ extractYearFromQuery query = none) →
        (performHybridSearch chunks query options).metadata.filteredCount
          = (performHybridSearch chunks query options).metadata.originalCount)
    ∧ (chunks = [] →
        (performHybridSearch chunks query options).chunks = []
        ∧ (performHybridSearch chunks query options).metadata.originalCount = 0
        ∧ (performHybridSearch chunks query options).metadata.filteredCount = 0) := by
  refine ⟨rfl, ?_, ?_, rfl, rfl, ?_, ?_, ?_⟩
  · show (yearTruthy (extractYearFromQuery query) && options.enableFiltering) = _
    rw [yearTruthy_extract]
  · show (yearTruthy (extractYearFromQuery query) && options.enableWeighting) = _
    rw [yearTruthy_extract]
  · show (hybridFiltered chunks (extractYearFromQuery query) options).length ≤ chunks.length
    exact hybridFiltered_length_le _ _ _
  · intro h
    show (hybridFiltered chunks (extractYearFromQuery query) options).length = chunks.length
    rcases h with h | h
    · rw [hybridFiltered_of_not_run _ _ _ (by rw [h, Bool.and_false])]
    · rw [hybridFiltered_of_not_run _ _ _ (by rw [h]; rfl)]
  · rintro rfl
    refine ⟨?_, rfl, ?_⟩
    · show sortChunks _ (hybridWorkingSet [] query options) = []
      rw [hybridWorkingSet, hybridFiltered_nil, hybridWeighted_nil, sortChunks_nil]
    · show (hybridFiltered [] (extractYearFromQuery query) options).length = 0
      rw [hybridFiltered_nil]
      rfl

/-- Witness for C1: on an empty input with a yearless query, the counts agree
and the ranked output is empty. -/
theorem performHybridSearch_metadata_spec_witness :
    (performHybridSearch [] ("budget futur") defaultOptions).metadata.filteredCount
      = (performHybridSearch [] ("budget futur") defaultOptions).metadata.originalCount
    ∧ (performHybridSearch [] ("budget futur") defaultOptions).chunks = [] :=
  ⟨(performHybridSearch_metadata_spec [] ("budget futur") defaultOptions).2.2.2.2.2.2.1
      (Or.inr (by decide)),
    ((performHybridSearch_metadata_spec [] ("budget futur") defaultOptions).2.2.2.2.2.2.2
      rfl).1⟩

/-- C5: the ranked list is a permutation of the working set produced by the
filtering and weighting steps; it is sorted in descending order of the
chosen key (`finalScore` when weighting ran, `score` otherwise); the sort is
stable, so chunks with equal keys keep their relative pre-sort order; and
when weighting ran, every ranked chunk carries a `finalScore`, so the key is
really its final score. -/
theorem performHybridSearch_sorted_spec (chunks : List Chunk) (query : String)
    (options : SearchOptions) :
    List.Perm (performHybridSearch chunks query options).chunks
      (hybridWorkingSet chunks query options)
    ∧ List.Pairwise
        (fun a b => sortKeyVal (hybridUseFinal query options) b
          ≤ sortKeyVal (hybridUseFinal query options) a)
        (performHybridSearch chunks query options).chunks
    ∧ (∀ a b : Chunk,
        sortKeyVal (hybridUseFinal query options) a
          = sortKeyVal (hybridUseFinal query options) b →
        List.Sublist [a, b] (hybridWorkingSet chunks query options) →
        List.Sublist [a, b] (performHybridSearch chunks query options).chunks)
    ∧ (hybridUseFinal query options = true →
        ∀ c ∈ (performHybridSearch chunks query options).chunks,
          c.finalScore.isSome = true) := by
  refine ⟨List.mergeSort_perm _ _, ?_, ?_, ?_⟩
  · exact List.Pairwise.imp (fun h => by simpa [chunkLE, decide_eq_true_eq] using h)
      (List.sorted_mergeSort (chunkLE_trans (hybridUseFinal query options))
        (chunkLE_total (hybridUseFinal query options)) _)
  · intro a b hkey hsub
    exact List.pair_sublist_mergeSort (chunkLE_trans _) (chunkLE_total _)
      (by simp only [chunkLE, decide_eq_true_eq, hkey, le_refl]) hsub
  · intro hu c hc
    have hc' : c ∈ hybridWorkingSet chunks query options := by
      simpa [performHybridSearch, sortChunks] using hc
    rw [hybridWorkingSet] at hc'
    have hguard : (yearTruthy (extractYearFromQuery query) && options.enableWeighting) = true := hu
    rw [hybridWeighted, if_pos hguard] at hc'
    rcases List.mem_map.mp hc' with ⟨c₁, _, rfl⟩
    exact weightChunk_finalScore_isSome _ _ c₁

/-- Witness for C5: on a yearless query over two dateless chunks with equal
scores, the stability clause keeps the input order in the ranked output. -/
theorem performHybridSearch_sorted_spec_witness :
    List.Sublist [chunkA, chunkB]
      (performHybridSearch [chunkA, chunkB] ("Projets futurs") defaultOptions).chunks := by
  have hu : hybridUseFinal ("Projets futurs") defaultOptions = false := by decide
  have hkey : sortKeyVal (hybridUseFinal ("Projets futurs") defaultOptions) chunkA
      = sortKeyVal (hybridUseFinal ("Projets futurs") defaultOptions) chunkB := by
    rw [hu]
    rfl
  have hws : hybridWorkingSet [chunkA, chunkB] ("Projets futurs") defaultOptions
      = [chunkA, chunkB] := by
    have he : extractYearFromQuery ("Projets futurs") = none := by decide
    simp [hybridWorkingSet, hybridFiltered, hybridWeighted, he, yearTruthy]
  exact (performHybridSearch_sorted_spec [chunkA, chunkB] ("Projets futurs")
    defaultOptions).2.2.1 chunkA chunkB hkey (hws ▸ List.Sublist.refl _)

/-- C8: the orchestrator is deterministic: two calls with equal chunk lists,
equal query strings and equal configurations return equal ranked lists and
equal metadata records. -/
theorem performHybridSearch_deterministic (c₁ c₂ : List Chunk) (q₁ q₂ : String)
    (o₁ o₂ : SearchOptions) (hc : c₁ = c₂) (hq : q₁ = q₂) (ho : o₁ = o₂) :
    (performHybridSearch c₁ q₁ o₁).chunks = (performHybridSearch c₂ q₂ o₂).chunks
    ∧ (performHybridSearch c₁ q₁ o₁).metadata = (performHybridSearch c₂ q₂ o₂).metadata := by
  subst hc
  subst hq
  subst ho
  exact ⟨rfl, rfl⟩

/-- Witness for C8 applied at a concrete call. -/
theorem performHybridSearch_deterministic_witness :
    (performHybridSearch [zeroYearChunk] ("en 2025") defaultOptions).chunks
      = (performHybridSearch [zeroYearChunk] ("en 2025") defaultOptions).chunks :=
  (performHybridSearch_deterministic [zeroYearChunk] [zeroYearChunk] ("en 2025") ("en 2025")
    defaultOptions defaultOptions rfl rfl rfl).1

/-- C9: the core never changes the `text`, `filename` or `page` of a chunk
(nor its `score` or `year`): every chunk retained by `filterByYear` is an
input chunk, and every chunk emitted by `applyTemporalWeighting` or ranked
by `performHybridSearch` agrees with some input chunk on all fields other
than the added `temporalScore`, `finalScore` and `originalScore`; the core
builds new records instead of mutating, which the embedding renders as pure
value construction. -/
theorem core_frame_invariant (chunks : List Chunk) (targetYear tolerance queryYear : Int)
    (temporalWeight : ℚ) (query : String) (options : SearchOptions) :
    (∀ c ∈ filterByYear chunks targetYear tolerance, c ∈ chunks)
    ∧ (∀ c ∈ applyTemporalWeighting chunks queryYear temporalWeight,
        ∃ c₀ ∈ chunks, c.text = c₀.text ∧ c.filename = c₀.filename ∧ c.page = c₀.page
          ∧ c.score = c₀.score ∧ c.year = c₀.year)
    ∧ (∀ c ∈ (performHybridSearch chunks query options).chunks,
        ∃ c₀ ∈ chunks, c.text = c₀.text ∧ c.filename = c₀.filename ∧ c.page = c₀.page
          ∧ c.score = c₀.score ∧ c.year = c₀.year) := by
  refine ⟨fun c hc => (List.mem_filter.mp hc).1, fun c hc => ?_, fun c hc => ?_⟩
  · rcases List.mem_map.mp hc with ⟨c₀, hc₀, rfl⟩
    obtain ⟨ht, hf, hp, hs, hy⟩ := weightChunk_fields _ _ c₀
    exact ⟨c₀, hc₀, ht, hf, hp, hs, hy⟩
  · have hc' : c ∈ hybridWorkingSet chunks query options := by
      simpa [performHybridSearch, sortChunks] using hc
    exact mem_hybridWorkingSet_frame hc'

/-- Witness for C9: the weighter clause applied to a dated chunk. -/
theorem core_frame_invariant_witness :
    ∃ c₀ ∈ [datedChunk],
      (weightChunk 2025 (3 / 10) datedChunk).text = c₀.text
      ∧ (weightChunk 2025 (3 / 10) datedChunk).filename = c₀.filename
      ∧ (weightChunk 2025 (3 / 10) datedChunk).page = c₀.page
      ∧ (weightChunk 2025 (3 / 10) datedChunk).score = c₀.score
      ∧ (weightChunk 2025 (3 / 10) datedChunk).year = c₀.year :=
  (core_frame_invariant [datedChunk] 2025 2 2025 (3 / 10) ("x") defaultOptions).2.1
    (weightChunk 2025 (3 / 10) datedChunk) (List.mem_singleton_self _)

/-- C10: the ranked list returned to the caller has exactly
`metadata.filteredCount` elements — weighting and sorting never change the
length after filtering — and when the filter did not run, `filteredCount`
equals `originalCount`. -/
theorem performHybridSearch_length_spec (chunks : List Chunk) (query : String)
    (options : SearchOptions) :
    (performHybridSearch chunks query options).chunks.length
      = (performHybridSearch chunks query options).metadata.filteredCount
    ∧ ((performHybridSearch chunks query options).metadata.temporalFilterApplied = false →
        (performHybridSearch chunks query options).metadata.filteredCount
          = (performHybridSearch chunks query options).metadata.originalCount) := by
  constructor
  · show (sortChunks _ (hybridWorkingSet chunks query options)).length = _
    rw [sortChunks_length, hybridWorkingSet, hybridWeighted_length]
    rfl
  · intro h
    show (hybridFiltered chunks (extractYearFromQuery query) options).length = chunks.length
    rw [hybridFiltered_of_not_run _ _ _ h]

/-- Witness for C10: on a yearless query the filter does not run and the
counts agree. -/
theorem performHybridSearch_length_spec_witness :
    (performHybridSearch [zeroYearChunk] ("Projets futurs") defaultOptions).metadata.filteredCount
      = (performHybridSearch [zeroYearChunk] ("Projets futurs") defaultOptions).metadata.originalCount :=
  (performHybridSearch_length_spec [zeroYearChunk] ("Projets futurs") defaultOptions).2
    (by decide)

end TemporalSearch
